import Mathlib

/-
Verification of the QIIME 2 plugin testing helper (`qiime2/plugin/testing.py`,
class `TestPluginBase`) against its natural-language specification.

The Python class is shallowly embedded as pure Lean functions.  Test-method
outcomes are made explicit: a normal return, a test failure raised through
`self.fail` or a failed assertion, or a directly raised `ValueError`.  The
external collaborators that the helper consumes (the plugin registry, the
resource locator, the temporary-directory machinery and the test runner's
lifecycle) are modelled as explicit data and state, following the source
where it exists and the specification where only the spec describes them.
Side effects of `transform_format` (data-path resolution, file copies,
format construction, transformer lookup) are recorded as an explicit
effect trace so that "before any I/O occurs" claims become statements
about that trace.
-/

namespace QiimePluginTesting

/-- Outcome of running one of the helper methods: a normal return carrying a
value, a test failure signalled via `self.fail` or a failed `assert*` call,
or a `ValueError` raised directly. -/
inductive Outcome (α : Type) where
  | ok : α → Outcome α
  | testFailure : String → Outcome α
  | valueError : String → Outcome α
deriving DecidableEq

/-- Model of a Python class object used as a format or transformation target:
its name and whether it is a subclass of `qiime2.plugin.model.base.FormatBase`. -/
structure PyClass where
  name : String
  formatBaseSub : Bool
deriving DecidableEq

/-- Model of a Python runtime value as far as `isinstance` checks go: the names
of the classes it is an instance of, plus flags for being a `pathlib` path
object (`type(pathlib.Path())`) and for being a `str`. -/
structure PyVal where
  classes : List String
  isPath : Bool
  isStr : Bool
deriving DecidableEq

/-- Model of Python `isinstance(v, c)` for a class modelled by `PyClass`. -/
def isinstance (v : PyVal) (c : PyClass) : Bool :=
  v.classes.contains c.name

/-- A constructed format instance: `source_format(source_path, mode='r')`. -/
structure FormatInstance where
  cls : PyClass
  path : Option String
  mode : String
deriving DecidableEq

/-- A transformer record as stored in `plugin.transformers`; the helper only
reads its `.transformer` attribute. -/
structure TransformerRecord where
  transformer : FormatInstance → PyVal

/-- A record of `plugin.type_formats`: a semantic-type expression associated
with a format class.  Type expressions are modelled as opaque strings compared
by equality, exactly as the helper compares them. -/
structure TypeFormatRecord where
  type_expression : String
  format : PyClass
deriving DecidableEq

/-- Model of a registered plugin, with the attributes the helper reads:
`package`, the `transformers` mapping keyed by `(from_type, to_type)` pairs,
and the `type_formats` list. -/
structure Plugin where
  package : String
  transformers : List ((PyClass × PyClass) × TransformerRecord)
  type_formats : List TypeFormatRecord

/-- Python dict lookup on an association list with unique keys: returns the
first binding of the key, `none` when the key is absent (a `KeyError`). -/
def dictFind {α β : Type} [DecidableEq α] : List (α × β) → α → Option β
  | [], _ => none
  | (k1, v) :: rest, k => if k1 = k then some v else dictFind rest k

/-- Characters of a package name before the first dot, mirroring
`self.package.split('.')[0]`. -/
def topLevelAux : List Char → List Char
  | [] => []
  | c :: rest => if c = '.' then [] else c :: topLevelAux rest

/-- The top-level segment of a dotted package name: `pkg.split('.')[0]`. -/
def topLevel (pkg : String) : String :=
  String.mk (topLevelAux pkg.toList)

/-- The plugin-resolution loop of `setUp`: iterate over the registry's
`(name, plugin)` items and keep the last plugin whose `package` attribute
equals the searched package (the loop has no `break`). -/
def resolvePlugin (plugins : List (String × Plugin)) (package : String) : Option Plugin :=
  plugins.foldl (fun a e => if e.2.package = package then some e.2 else a) none

/-- The data `setUp` binds on success: `self.plugin` and the name of the
temporary directory it creates (`self.temp_dir`). -/
structure SetUpOk where
  plugin : Plugin
  temp_dir : String

/-- Embedding of `TestPluginBase.setUp`.  `packageAttr` is the subclass's
`package` attribute (`none` models the default `None`, on which
`.split` raises `AttributeError` and the `except` branch calls `self.fail`).
On success the temporary directory named `tempName` is created; its creation
in the file system is modelled in `runTestCase` below. -/
def setUp (plugins : List (String × Plugin)) (packageAttr : Option String)
    (tempName : String) : Outcome SetUpOk :=
  match packageAttr with
  | none => Outcome.testFailure "Test class must have a package property."
  | some pkgAttr =>
    match resolvePlugin plugins (topLevel pkgAttr) with
    | some p => Outcome.ok ⟨p, tempName⟩
    | none => Outcome.testFailure (topLevel pkgAttr ++ " is not a registered QIIME 2 plugin.")

/-- Embedding of `TestPluginBase.tearDown` on the file-system state:
`self.temp_dir.cleanup()` removes the temporary directory and all of its
contents.  The file system is modelled as the list of existing directories,
each entry standing for a directory together with its contents. -/
def tearDown (fs : List String) (temp_dir : String) : List String :=
  fs.erase temp_dir

/-- How a test body finished: passed, failed an assertion, or raised. -/
inductive BodyOutcome where
  | passed
  | failedAssertion
  | raisedError
deriving DecidableEq

/-- Modelled from the spec: the unittest runner executes `setUp`, then the
test body, then `tearDown`, and `tearDown` runs on every exit path of the
body (pass, assertion failure, raised error) whenever `setUp` completed.
`tempfile.TemporaryDirectory` creates the directory at the end of `setUp`
(so a failed `setUp` creates nothing) and `cleanup` removes it with its
contents.  The body's outcome is a parameter; it does not affect cleanup. -/
def runTestCase (fs : List String) (plugins : List (String × Plugin))
    (packageAttr : Option String) (tempName : String) (body : BodyOutcome) :
    List String :=
  match setUp plugins packageAttr tempName with
  | Outcome.ok _ =>
      match body with
      | _ => tearDown (tempName :: fs) tempName
  | _ => fs

/-- Modelled from the spec: `pkg_resources.resource_filename` maps a package
and a relative path to the bundled data file path; `get_data_path` asks for
`'data/%s' % filename` inside `self.package`. -/
def get_data_path (package : String) (filename : String) : String :=
  package ++ "/data/" ++ filename

/-- Embedding of `TestPluginBase.get_transformer`: look the pair up in the
plugin's `transformers` dict, fail the test with a message naming both types
on `KeyError`, otherwise return the record's `transformer` attribute. -/
def get_transformer (plugin : Plugin) (from_type to_type : PyClass) :
    Outcome (FormatInstance → PyVal) :=
  match dictFind plugin.transformers (from_type, to_type) with
  | some record => Outcome.ok record.transformer
  | none => Outcome.testFailure ("Could not find registered transformer from "
      ++ from_type.name ++ " to " ++ to_type.name ++ ".")

/-- The `for`/`break` scan of `assertSemanticTypeRegisteredToFormat`: the
format of the first record whose `type_expression` equals the semantic type,
`none` when no record matches. -/
def findRegisteredFormat : List TypeFormatRecord → String → Option PyClass
  | [], _ => none
  | r :: rest, st =>
      if r.type_expression = st then some r.format else findRegisteredFormat rest st

/-- Embedding of `TestPluginBase.assertSemanticTypeRegisteredToFormat`:
scan `plugin.type_formats` for the first matching type expression
(`assertIsNotNone` fails when none matches), then `assertEqual` the observed
format against the expected one with a descriptive mismatch message. -/
def assertSemanticTypeRegisteredToFormat (plugin : Plugin) (semantic_type : String)
    (exp_format : PyClass) : Outcome Unit :=
  match findRegisteredFormat plugin.type_formats semantic_type with
  | none => Outcome.testFailure ("Semantic type " ++ semantic_type
      ++ " is not registered to a format.")
  | some obs_format =>
      if obs_format = exp_format then Outcome.ok ()
      else Outcome.testFailure ("Expected semantic type " ++ semantic_type
          ++ " to be registered to format " ++ exp_format.name
          ++ ", not " ++ obs_format.name ++ ".")

/-- One observable side effect of `transform_format`, in program order. -/
inductive Effect where
  | resolveDataPath : String → Effect
  | copyFile : String → String → Effect
  | constructFormat : PyClass → Option String → String → Effect
  | transformerLookup : PyClass → PyClass → Effect
deriving DecidableEq

/-- Python truthiness of the `filename` argument (`if filename:`):
true exactly when it is a non-empty string. -/
def truthyStr : Option String → Bool
  | none => false
  | some s => !s.isEmpty

/-- Python truthiness of the `filenames` argument (`elif filenames:`):
true exactly when it is a non-empty list. -/
def truthyList : Option (List String) → Bool
  | none => false
  | some l => !l.isEmpty

/-- Effects of the `filenames` staging loop: for each name, resolve its data
path and copy the file into the temporary directory. -/
def stageFiles (package : String) (temp_dir : String) (files : List String) :
    List Effect :=
  files.flatMap (fun fn =>
    [Effect.resolveDataPath fn, Effect.copyFile (get_data_path package fn) temp_dir])

/-- The format-initialization phase of `transform_format`: the effects it
performs and the resulting `source_path` (`none` when neither argument is
truthy). -/
def stagePhase (package temp_dir : String) (filename : Option String)
    (filenames : Option (List String)) : List Effect × Option String :=
  if truthyStr filename then
    ([Effect.resolveDataPath (filename.getD "")],
     some (get_data_path package (filename.getD "")))
  else if truthyList filenames then
    (stageFiles package temp_dir (filenames.getD []), some temp_dir)
  else ([], none)

/-- The final `assertIsInstance` of `transform_format`: when the target is a
format class the result may be a path object, a `str`, or a target instance;
otherwise it must be a target instance. -/
def instanceCheck (target : PyClass) (obs : PyVal) : Bool :=
  if target.formatBaseSub then obs.isPath || obs.isStr || isinstance obs target
  else isinstance obs target

/-- The transformer phase of `transform_format`: look up the transformer
(`self.fail` propagates on a missing registration), apply it to the
constructed input, and run the final `assertIsInstance`. -/
def transformPhase (plugin : Plugin) (source_format target : PyClass)
    (input : FormatInstance) : Outcome (FormatInstance × PyVal) :=
  match get_transformer plugin source_format target with
  | Outcome.ok transformer =>
      if instanceCheck target (transformer input) then
        Outcome.ok (input, transformer input)
      else
        Outcome.testFailure ("assertIsInstance failed for " ++ target.name ++ ".")
  | Outcome.testFailure msg => Outcome.testFailure msg
  | Outcome.valueError msg => Outcome.valueError msg

/-- Embedding of `TestPluginBase.transform_format`.  Returns the trace of
side effects performed together with the outcome.  The two guards raise
`ValueError` before any effect; otherwise the source path is staged, the
read-mode format instance is constructed, the transformer is looked up and
applied, and the result is checked with `assertIsInstance`. -/
def transform_format (package temp_dir : String) (plugin : Plugin)
    (source_format target : PyClass)
    (filename : Option String) (filenames : Option (List String)) :
    List Effect × Outcome (FormatInstance × PyVal) :=
  if !source_format.formatBaseSub then
    ([], Outcome.valueError "`source_format` must be a subclass of FormatBase.")
  else if filename.isSome && filenames.isSome then
    ([], Outcome.valueError "Cannot use both `filename` and `filenames` at the same time.")
  else
    ((stagePhase package temp_dir filename filenames).1
        ++ [Effect.constructFormat source_format
              (stagePhase package temp_dir filename filenames).2 "r",
            Effect.transformerLookup source_format target],
     transformPhase plugin source_format target
       ⟨source_format, (stagePhase package temp_dir filename filenames).2, "r"⟩)

/-! Concrete sample data used by the witness theorems. -/

/-- A sample format class that subclasses `FormatBase`. -/
def fmtA : PyClass := ⟨"FmtA", true⟩

/-- A second sample format class that subclasses `FormatBase`. -/
def fmtB : PyClass := ⟨"FmtB", true⟩

/-- A sample non-format target class (e.g. a metadata class). -/
def metaCls : PyClass := ⟨"Meta", false⟩

/-- A sample class that is not a `FormatBase` subclass, used as an invalid
source format. -/
def notAFormat : PyClass := ⟨"NotAFormat", false⟩

/-- A sample value that is an instance of `Meta` (and neither a path nor a
string). -/
def metaVal : PyVal := ⟨["Meta"], false, false⟩

/-- A sample transformer record from `FmtA` to `Meta`. -/
def recAtoMeta : TransformerRecord := ⟨fun _ => metaVal⟩

/-- A sample plugin whose `package` is `"pkg"`, registering one transformer
from `FmtA` to `Meta` and one type-format record. -/
def samplePlugin : Plugin :=
  ⟨"pkg", [((fmtA, metaCls), recAtoMeta)], [⟨"TypeX", fmtA⟩]⟩

/-- A sample plugin with a different package, `"other"`. -/
def otherPlugin : Plugin := ⟨"other", [], []⟩

/-- A sample registry holding both plugins, keyed by plugin name. -/
def sampleRegistry : List (String × Plugin) :=
  [("other-plugin", otherPlugin), ("sample-plugin", samplePlugin)]

/-- A sample plugin whose `type_formats` list holds two records for the same
type expression with different formats; only the first is ever compared. -/
def dupPlugin : Plugin :=
  ⟨"dup", [], [⟨"TypeX", fmtA⟩, ⟨"TypeX", fmtB⟩]⟩

/-! Helper lemmas. -/

/-- The resolution loop keeps the last match: when every matching entry of the
list equals `p` and either the list holds a match or the accumulator is
already `some p`, the fold returns `some p`. -/
theorem resolve_loop_last_match (pkg : String) (p : Plugin)
    (l : List (String × Plugin)) :
    ∀ acc : Option Plugin,
      (∀ e ∈ l, e.2.package = pkg → e.2 = p) →
      ((∃ e ∈ l, e.2.package = pkg) ∨ acc = some p) →
      List.foldl (fun a e => if e.2.package = pkg then some e.2 else a) acc l = some p := by
  induction l with
  | nil =>
      intro acc _ h
      rcases h with ⟨e, he, _⟩ | h
      · exact absurd he (List.not_mem_nil e)
      · simpa using h
  | cons e l ih =>
      intro acc hall h
      simp only [List.foldl_cons]
      by_cases hc : e.2.package = pkg
      · rw [if_pos hc]
        exact ih _ (fun x hx => hall x (List.mem_cons_of_mem e hx))
          (Or.inr (by rw [hall e (List.mem_cons_self e l) hc]))
      · rw [if_neg hc]
        apply ih _ (fun x hx => hall x (List.mem_cons_of_mem e hx))
        rcases h with ⟨x, hxl, hxp⟩ | hacc
        · rcases List.mem_cons.mp hxl with hx | hx
          · exact absurd (hx ▸ hxp) hc
          · exact Or.inl ⟨x, hx, hxp⟩
        · exact Or.inr hacc

/-- `dictFind` finds a stored binding: with pairwise-distinct keys (the dict
invariant), a binding present in the list is the one returned. -/
theorem dictFind_of_mem {α β : Type} [DecidableEq α]
    (l : List (α × β)) (k : α) (v : β)
    (hnd : (l.map Prod.fst).Nodup) (hmem : (k, v) ∈ l) :
    dictFind l k = some v := by
  induction l with
  | nil => exact absurd hmem (List.not_mem_nil _)
  | cons e l ih =>
      rcases List.mem_cons.mp hmem with he | hmem'
      · cases e
        cases he
        simp [dictFind]
      · cases e with
        | mk k1 v1 =>
          simp only [List.map_cons, List.nodup_cons] at hnd
          have hk1 : k1 ≠ k := by
            intro hk
            exact hnd.1 (hk ▸ List.mem_map_of_mem Prod.fst hmem')
          simp only [dictFind, if_neg hk1]
          exact ih hnd.2 hmem'

/-- `dictFind` misses an absent key: when no binding of `k` is in the list,
the lookup returns `none` (a `KeyError`). -/
theorem dictFind_of_not_mem {α β : Type} [DecidableEq α]
    (l : List (α × β)) (k : α)
    (habs : ∀ v : β, (k, v) ∉ l) :
    dictFind l k = none := by
  induction l with
  | nil => rfl
  | cons e l ih =>
      cases e with
      | mk k1 v1 =>
        have hk1 : k1 ≠ k := by
          intro hk
          exact habs v1 (by rw [hk]; exact List.mem_cons_self _ _)
        simp only [dictFind, if_neg hk1]
        exact ih (fun v hv => habs v (List.mem_cons_of_mem _ hv))

/-- `findRegisteredFormat` returns `none` when no record matches. -/
theorem findRegisteredFormat_of_no_match (l : List TypeFormatRecord) (st : String)
    (h : ∀ r ∈ l, r.type_expression ≠ st) :
    findRegisteredFormat l st = none := by
  induction l with
  | nil => rfl
  | cons r l ih =>
      simp only [findRegisteredFormat, if_neg (h r (List.mem_cons_self r l))]
      exact ih (fun x hx => h x (List.mem_cons_of_mem r hx))

/-- `findRegisteredFormat` returns the format of the first matching record:
splitting the list around the first match characterizes the result. -/
theorem findRegisteredFormat_first_match (l1 l2 : List TypeFormatRecord)
    (r : TypeFormatRecord) (st : String)
    (hmiss : ∀ x ∈ l1, x.type_expression ≠ st)
    (hmatch : r.type_expression = st) :
    findRegisteredFormat (l1 ++ r :: l2) st = some r.format := by
  induction l1 with
  | nil => simp [findRegisteredFormat, if_pos hmatch]
  | cons x l1 ih =>
      simp only [List.cons_append, findRegisteredFormat,
        if_neg (hmiss x (List.mem_cons_self x l1))]
      exact ih (fun y hy => hmiss y (List.mem_cons_of_mem x hy))

/-- The transformer phase only returns normally when the final
`assertIsInstance` check passed on the observed result. -/
theorem transformPhase_ok_instanceCheck
    (plugin : Plugin) (source_format target : PyClass)
    (input inp : FormatInstance) (obs : PyVal)
    (h : transformPhase plugin source_format target input = Outcome.ok (inp, obs)) :
    instanceCheck target obs = true := by
  unfold transformPhase at h
  split at h
  · split at h
    · rename_i hguard
      simp only [Outcome.ok.injEq, Prod.mk.injEq] at h
      rw [← h.2]
      exact hguard
    · simp at h
  · simp at h
  · simp at h

/-! Claim theorems. -/

/-- C1: for every subclass whose `package` attribute names a registered
plugin, `setUp` binds exactly one plugin to `self.plugin`, namely the plugin
whose `package` equals the top-level segment of the subclass's `package`
attribute (the part before the first dot). -/
theorem C1_setUp_binds_matching_plugin
    (plugins : List (String × Plugin)) (pkgAttr tempName : String) (p : Plugin)
    (hmem : ∃ name, (name, p) ∈ plugins)
    (hpkg : p.package = topLevel pkgAttr)
    (huniq : ∀ name q, (name, q) ∈ plugins → q.package = topLevel pkgAttr → q = p) :
    setUp plugins (some pkgAttr) tempName = Outcome.ok ⟨p, tempName⟩ := by
  have hres : resolvePlugin plugins (topLevel pkgAttr) = some p := by
    unfold resolvePlugin
    apply resolve_loop_last_match
    · intro e he hp
      exact huniq e.1 e.2 he hp
    · obtain ⟨name, hm⟩ := hmem
      exact Or.inl ⟨(name, p), hm, hpkg⟩
  simp [setUp, hres]

/-- Witness for C1 at a concrete two-plugin registry. -/
theorem C1_witness :
    setUp sampleRegistry (some "pkg.tests.transformer_tests") "tmpdir" =
      Outcome.ok ⟨samplePlugin, "tmpdir"⟩ :=
  C1_setUp_binds_matching_plugin sampleRegistry "pkg.tests.transformer_tests"
    "tmpdir" samplePlugin
    ⟨"sample-plugin", by simp [sampleRegistry]⟩
    (by decide)
    (by
      intro name q hq hp
      simp [sampleRegistry] at hq
      rcases hq with ⟨_, hq⟩ | ⟨_, hq⟩
      · exact absurd (hq ▸ hp) (by decide)
      · exact hq)

/-- C2: calling `transform_format` with both `filename` and `filenames`
non-`None` raises a `ValueError` with an empty effect trace: no data path is
resolved, no file is copied, no format instance is constructed, and no
transformer lookup happens. -/
theorem C2_conflicting_filename_args_rejected
    (package temp_dir : String) (plugin : Plugin) (source_format target : PyClass)
    (fn : String) (fns : List String) :
    (transform_format package temp_dir plugin source_format target
        (some fn) (some fns)).1 = [] ∧
      ∃ msg, (transform_format package temp_dir plugin source_format target
        (some fn) (some fns)).2 = Outcome.valueError msg := by
  cases hb : source_format.formatBaseSub <;> simp [transform_format, hb]

/-- C3: calling `transform_format` with a `source_format` that is not a
subclass of `FormatBase` raises a `ValueError` with an empty effect trace,
so in particular before any transformer lookup. -/
theorem C3_nonformat_source_rejected
    (package temp_dir : String) (plugin : Plugin) (source_format target : PyClass)
    (filename : Option String) (filenames : Option (List String))
    (h : source_format.formatBaseSub = false) :
    transform_format package temp_dir plugin source_format target filename filenames =
      ([], Outcome.valueError "`source_format` must be a subclass of FormatBase.") := by
  simp [transform_format, h]

/-- Witness for C3 at a concrete non-format source class. -/
theorem C3_witness :
    transform_format "pkg" "tmpdir" samplePlugin notAFormat metaCls none none =
      ([], Outcome.valueError "`source_format` must be a subclass of FormatBase.") :=
  C3_nonformat_source_rejected "pkg" "tmpdir" samplePlugin notAFormat metaCls
    none none rfl

/-- C4: `get_transformer` returns exactly the transformer stored in the
plugin's `transformers` dict under `(from_type, to_type)`; when no such
registration exists it fails the test with a message naming both types. -/
theorem C4_get_transformer_exact_lookup
    (plugin : Plugin) (from_type to_type : PyClass) :
    ((plugin.transformers.map Prod.fst).Nodup →
      ∀ record : TransformerRecord,
        ((from_type, to_type), record) ∈ plugin.transformers →
        get_transformer plugin from_type to_type = Outcome.ok record.transformer) ∧
    ((∀ record : TransformerRecord,
        ((from_type, to_type), record) ∉ plugin.transformers) →
      get_transformer plugin from_type to_type =
        Outcome.testFailure ("Could not find registered transformer from "
          ++ from_type.name ++ " to " ++ to_type.name ++ ".")) := by
  constructor
  · intro hnd record hmem
    unfold get_transformer
    rw [dictFind_of_mem _ _ _ hnd hmem]
  · intro habs
    unfold get_transformer
    rw [dictFind_of_not_mem _ _ habs]

/-- Witness for C4: the registered pair returns the stored transformer, an
unregistered pair fails with the message naming both types. -/
theorem C4_witness :
    get_transformer samplePlugin fmtA metaCls = Outcome.ok recAtoMeta.transformer ∧
    get_transformer samplePlugin fmtA fmtB =
      Outcome.testFailure ("Could not find registered transformer from "
        ++ fmtA.name ++ " to " ++ fmtB.name ++ ".") :=
  ⟨(C4_get_transformer_exact_lookup samplePlugin fmtA metaCls).1
      (by simp [samplePlugin]) recAtoMeta (by simp [samplePlugin]),
   (C4_get_transformer_exact_lookup samplePlugin fmtA fmtB).2
      (by
        intro record hr
        simp only [samplePlugin] at hr
        have e := List.mem_singleton.mp hr
        have e2 : fmtB = metaCls := congrArg (fun x => x.1.2) e
        exact absurd e2 (by decide))⟩

/-- C5: whenever `transform_format` completes normally, the observed result
passed the final `assertIsInstance`: when the target is a format class the
result is a path object, a `str`, or a target instance; otherwise it is an
instance of the target type. -/
theorem C5_result_type_asserted
    (package temp_dir : String) (plugin : Plugin) (source_format target : PyClass)
    (filename : Option String) (filenames : Option (List String))
    (effs : List Effect) (inp : FormatInstance) (obs : PyVal)
    (h : transform_format package temp_dir plugin source_format target
        filename filenames = (effs, Outcome.ok (inp, obs))) :
    (target.formatBaseSub = true →
      (obs.isPath || obs.isStr || isinstance obs target) = true) ∧
    (target.formatBaseSub = false → isinstance obs target = true) := by
  have hic : instanceCheck target obs = true := by
    unfold transform_format at h
    split at h
    · simp at h
    · split at h
      · simp at h
      · have h2 := congrArg Prod.snd h
        simp only at h2
        exact transformPhase_ok_instanceCheck _ _ _ _ _ _ h2
  constructor
  · intro ht
    simpa [instanceCheck, ht] using hic
  · intro hf
    simpa [instanceCheck, hf] using hic

/-- Witness for C5 at a completing concrete call with a non-format target. -/
theorem C5_witness :
    (metaCls.formatBaseSub = true →
      (metaVal.isPath || metaVal.isStr || isinstance metaVal metaCls) = true) ∧
    (metaCls.formatBaseSub = false → isinstance metaVal metaCls = true) :=
  C5_result_type_asserted "pkg" "tmpdir" samplePlugin fmtA metaCls none none
    [Effect.constructFormat fmtA none "r", Effect.transformerLookup fmtA metaCls]
    ⟨fmtA, none, "r"⟩ metaVal (by decide)

/-- C6: a subclass with the default `package = None` makes `setUp` fail the
test with the descriptive message, not an unrelated error. -/
theorem C6_setUp_missing_package_attribute
    (plugins : List (String × Plugin)) (tempName : String) :
    setUp plugins none tempName =
      Outcome.testFailure "Test class must have a package property." := rfl

/-- C7: `assertSemanticTypeRegisteredToFormat` scans `type_formats` for the
first record matching the semantic type; it fails when none matches, and for
a first match it passes or fails by comparing that record's format against
the expected one, with the descriptive mismatch message. -/
theorem C7_type_format_assertion
    (plugin : Plugin) (semantic_type : String) (exp_format : PyClass) :
    ((∀ r ∈ plugin.type_formats, r.type_expression ≠ semantic_type) →
      assertSemanticTypeRegisteredToFormat plugin semantic_type exp_format =
        Outcome.testFailure ("Semantic type " ++ semantic_type
          ++ " is not registered to a format.")) ∧
    (∀ l1 l2 r, plugin.type_formats = l1 ++ r :: l2 →
      (∀ x ∈ l1, x.type_expression ≠ semantic_type) →
      r.type_expression = semantic_type →
      assertSemanticTypeRegisteredToFormat plugin semantic_type exp_format =
        (if r.format = exp_format then Outcome.ok ()
         else Outcome.testFailure ("Expected semantic type " ++ semantic_type
           ++ " to be registered to format " ++ exp_format.name
           ++ ", not " ++ r.format.name ++ "."))) := by
  constructor
  · intro hall
    unfold assertSemanticTypeRegisteredToFormat
    rw [findRegisteredFormat_of_no_match _ _ hall]
  · intro l1 l2 r hsplit hmiss hmatch
    unfold assertSemanticTypeRegisteredToFormat
    rw [hsplit, findRegisteredFormat_first_match l1 l2 r _ hmiss hmatch]

/-- Witness for C7: an unregistered type fails with the not-registered
message; a registered type with a mismatching expected format reduces to the
comparison against the first record's format. -/
theorem C7_witness :
    assertSemanticTypeRegisteredToFormat samplePlugin "TypeZ" fmtA =
      Outcome.testFailure ("Semantic type " ++ "TypeZ"
        ++ " is not registered to a format.") ∧
    assertSemanticTypeRegisteredToFormat samplePlugin "TypeX" fmtB =
      (if (⟨"TypeX", fmtA⟩ : TypeFormatRecord).format = fmtB then Outcome.ok ()
       else Outcome.testFailure ("Expected semantic type " ++ "TypeX"
         ++ " to be registered to format " ++ fmtB.name
         ++ ", not " ++ (⟨"TypeX", fmtA⟩ : TypeFormatRecord).format.name ++ ".")) :=
  ⟨(C7_type_format_assertion samplePlugin "TypeZ" fmtA).1
      (by
        intro r hr
        simp only [samplePlugin] at hr
        have e := List.mem_singleton.mp hr
        rw [e]
        decide),
   (C7_type_format_assertion samplePlugin "TypeX" fmtB).2
      [] [] ⟨"TypeX", fmtA⟩ rfl (fun x hx => absurd hx (List.not_mem_nil x)) rfl⟩

/-- C8: the test lifecycle always removes the temporary directory created in
`setUp`, for every body outcome including a raised error; the file system is
restored and the directory is gone. -/
theorem C8_temp_dir_always_removed
    (fs : List String) (plugins : List (String × Plugin))
    (packageAttr : Option String) (tempName : String) (body : BodyOutcome)
    (hfresh : tempName ∉ fs) :
    runTestCase fs plugins packageAttr tempName body = fs ∧
      tempName ∉ runTestCase fs plugins packageAttr tempName body := by
  have hrun : runTestCase fs plugins packageAttr tempName body = fs := by
    unfold runTestCase
    cases hs : setUp plugins packageAttr tempName with
    | ok r => cases body <;> simp [tearDown]
    | testFailure m => rfl
    | valueError m => rfl
  exact ⟨hrun, by rw [hrun]; exact hfresh⟩

/-- Witness for C8 with a body that raised an error. -/
theorem C8_witness :
    runTestCase [] sampleRegistry (some "pkg.tests.transformer_tests") "tmpdir"
      BodyOutcome.raisedError = [] ∧
    "tmpdir" ∉ runTestCase [] sampleRegistry (some "pkg.tests.transformer_tests")
      "tmpdir" BodyOutcome.raisedError :=
  C8_temp_dir_always_removed [] sampleRegistry (some "pkg.tests.transformer_tests")
    "tmpdir" BodyOutcome.raisedError (List.not_mem_nil _)

/-- C9: the staging conditionals test truthiness, not `None`-ness: with
`filename` the empty string (or `filenames` the empty list) and the other
argument `None`, no data path is resolved and no file is copied, and the
source format is constructed with a `None` path in read mode. -/
theorem C9_truthiness_not_none_check
    (package temp_dir : String) (plugin : Plugin) (source_format target : PyClass)
    (h : source_format.formatBaseSub = true) :
    (transform_format package temp_dir plugin source_format target
        (some "") none).1 =
      [Effect.constructFormat source_format none "r",
       Effect.transformerLookup source_format target] ∧
    (transform_format package temp_dir plugin source_format target
        none (some [])).1 =
      [Effect.constructFormat source_format none "r",
       Effect.transformerLookup source_format target] := by
  have h1 : truthyStr (some "") = false := by decide
  have h2 : truthyList none = false := rfl
  have h3 : truthyStr none = false := rfl
  have h4 : truthyList (some []) = false := rfl
  constructor <;> simp [transform_format, h, stagePhase, h1, h2, h3, h4]

/-- Witness for C9 at a concrete format class. -/
theorem C9_witness :
    (transform_format "pkg" "tmpdir" samplePlugin fmtA metaCls (some "") none).1 =
      [Effect.constructFormat fmtA none "r",
       Effect.transformerLookup fmtA metaCls] ∧
    (transform_format "pkg" "tmpdir" samplePlugin fmtA metaCls none (some [])).1 =
      [Effect.constructFormat fmtA none "r",
       Effect.transformerLookup fmtA metaCls] :=
  C9_truthiness_not_none_check "pkg" "tmpdir" samplePlugin fmtA metaCls rfl

/-- C10: only the first matching record of `type_formats` is compared: the
assertion passes when the first match carries the expected format, whatever
later matching records (possibly with different formats) the tail holds. -/
theorem C10_only_first_match_checked
    (plugin : Plugin) (semantic_type : String) (exp_format : PyClass)
    (l1 l2 : List TypeFormatRecord) (r : TypeFormatRecord)
    (hsplit : plugin.type_formats = l1 ++ r :: l2)
    (hmiss : ∀ x ∈ l1, x.type_expression ≠ semantic_type)
    (hmatch : r.type_expression = semantic_type)
    (hfmt : r.format = exp_format) :
    assertSemanticTypeRegisteredToFormat plugin semantic_type exp_format =
      Outcome.ok () := by
  unfold assertSemanticTypeRegisteredToFormat
  rw [hsplit, findRegisteredFormat_first_match l1 l2 r _ hmiss hmatch]
  simp [hfmt]

/-- Witness for C10: a plugin with two records for the same type expression
and different formats; the assertion passes against the first record's
format despite the mismatching second record. -/
theorem C10_witness :
    assertSemanticTypeRegisteredToFormat dupPlugin "TypeX" fmtA = Outcome.ok () :=
  C10_only_first_match_checked dupPlugin "TypeX" fmtA [] [⟨"TypeX", fmtB⟩]
    ⟨"TypeX", fmtA⟩ rfl (fun x hx => absurd hx (List.not_mem_nil x)) rfl rfl

end QiimePluginTesting
